import Mathlib

/-!
Shallow embedding of `smsgwclient.go` (package `smsgwclient`, Intelecom SMS
Gateway client).  The data model (`Message`, `Settings`, `OriginatorSettings`,
`GasSettings`, `SendWindow`, `smsGatewayRequest`, `SmsGatewayResponse`,
`MessageStatus`), Go's `encoding/json` marshalling with the struct tags of the
source (field order, `omitempty`), the JSON decoding used on the response, and
the `Send` control flow are embedded below.  The HTTP transport
(`http.Client.Do`) is a parameter of `Send`: a function from the built request
to either a transport error (in which case Go's `Do` returns a nil response)
or a status code plus body.
-/

namespace SmsGw

/-- JSON values, as produced by Go's `encoding/json`.  `numRaw` holds a
non-integer numeric literal as parsed from a response body (the request
serializer only ever emits integer `num` values, matching the `int` fields of
the source structs). -/
inductive Json where
  | null
  | bool (b : Bool)
  | num (n : Int)
  | numRaw (raw : String)
  | str (s : String)
  | arr (elems : List Json)
  | obj (fields : List (String × Json))
  deriving Inhabited, Repr

/-- Character constants used when rendering and parsing JSON text. -/
def quoteChar : Char := Char.ofNat 34

def backslashChar : Char := Char.ofNat 92

def lbraceChar : Char := Char.ofNat 123

def rbraceChar : Char := Char.ofNat 125

/-- Lower-case hexadecimal digit, as used by Go's `\u00XX` escapes. -/
def hexDigit (n : Nat) : Char :=
  if n < 10 then Char.ofNat (48 + n) else Char.ofNat (87 + n)

/-- Escape one character of a JSON string the way Go's `encoding/json`
encoder does by default (quotes, backslash, `\n`/`\r`/`\t`, HTML-escaped
`<`, `>`, `&`, and `\u00XX` for the remaining control characters). -/
def escapeChar (c : Char) : List Char :=
  if c = quoteChar then [backslashChar, quoteChar]
  else if c = backslashChar then [backslashChar, backslashChar]
  else if c = Char.ofNat 10 then [backslashChar, 'n']
  else if c = Char.ofNat 13 then [backslashChar, 'r']
  else if c = Char.ofNat 9 then [backslashChar, 't']
  else if c = '<' then [backslashChar, 'u', '0', '0', '3', 'c']
  else if c = '>' then [backslashChar, 'u', '0', '0', '3', 'e']
  else if c = '&' then [backslashChar, 'u', '0', '0', '2', '6']
  else if c.toNat < 32 then
    [backslashChar, 'u', '0', '0', hexDigit (c.toNat / 16), hexDigit (c.toNat % 16)]
  else [c]

/-- Render a JSON string literal with surrounding quotes. -/
def renderString (s : String) : String :=
  String.mk ([quoteChar] ++ (s.data.flatMap escapeChar) ++ [quoteChar])

mutual

/-- Render a JSON value to its textual form, following Go's compact
`json.Marshal` output (no added whitespace, object fields in the order they
were produced). -/
def Json.render : Json → String
  | Json.null => "null"
  | Json.bool true => "true"
  | Json.bool false => "false"
  | Json.num n => toString n
  | Json.numRaw raw => raw
  | Json.str s => renderString s
  | Json.arr xs => "[" ++ renderElems xs ++ "]"
  | Json.obj fs => "\x7b" ++ renderFields fs ++ "\x7d"

/-- Comma-separated rendering of array elements. -/
def renderElems : List Json → String
  | [] => ""
  | [x] => Json.render x
  | x :: y :: xs => Json.render x ++ "," ++ renderElems (y :: xs)

/-- Comma-separated rendering of object fields. -/
def renderFields : List (String × Json) → String
  | [] => ""
  | [f] => renderString f.1 ++ ":" ++ Json.render f.2
  | f :: g :: fs => renderString f.1 ++ ":" ++ Json.render f.2 ++ "," ++ renderFields (g :: fs)

end

/-- Whether a JSON object has a field with exactly the given key (a
non-object has no keys). -/
def Json.hasKey (j : Json) (k : String) : Bool :=
  match j with
  | Json.obj fs => fs.any (fun f => f.1 == k)
  | _ => false

/-- The keys of a JSON object, in order. -/
def Json.keys (j : Json) : List String :=
  match j with
  | Json.obj fs => fs.map Prod.fst
  | _ => []

/-- First value bound to a key in a JSON object. -/
def Json.lookupKey (j : Json) (k : String) : Option Json :=
  match j with
  | Json.obj fs => (fs.find? (fun f => f.1 == k)).map Prod.snd
  | _ => none

/-! ### Go `time.Time` values

Only two aspects of `time.Time` matter to this client: `MarshalJSON` fails
when the year is outside `[0, 9999]` (Go: `Time.MarshalJSON`), and otherwise
the value marshals as a quoted RFC 3339 string.  The rendering itself is
carried as an abstract field. -/

/-- A Go `time.Time`, reduced to its year (which decides whether
`MarshalJSON` succeeds) and its RFC 3339 rendering. -/
structure GoTime where
  year : Int
  rfc3339 : String
  deriving DecidableEq, Repr

/-- `time.Time.MarshalJSON`: fails for years outside `[0, 9999]`, otherwise
produces the quoted RFC 3339 rendering. -/
def GoTime.marshalJSON (t : GoTime) : Except String Json :=
  if t.year < 0 || t.year ≥ 10000 then
    Except.error "json: error calling MarshalJSON for type time.Time: Time.MarshalJSON: year outside of range [0,9999]"
  else
    Except.ok (Json.str t.rfc3339)

/-! ### The data model of `smsgwclient.go`

Each structure mirrors the Go struct field-for-field, in declaration order.
Go pointer fields (`*Settings`, `*time.Time`, ...) become `Option`; the
`map[string]string` field becomes an association list (Go marshals map keys
in sorted order, and a nil map and an empty map both serialize identically
under `omitempty`). -/

/-- `OriginatorSettings` for a message. -/
structure OriginatorSettings where
  OriginatorType : String
  Originator : String
  deriving DecidableEq, Repr

/-- `GasSettings` for a message. -/
structure GasSettings where
  ServiceCode : String
  Description : String
  deriving DecidableEq, Repr

/-- `SendWindow` for a message. -/
structure SendWindow where
  StartDate : GoTime
  StartTime : Option GoTime
  StopDate : Option GoTime
  StopTime : Option GoTime
  deriving DecidableEq, Repr

/-- `Settings` for a `Message`. -/
structure Settings where
  Priority : Int
  Validity : Int
  Differentiator : String
  Age : Int
  NewSession : Bool
  SessionID : String
  InvoiceNode : String
  AutoDetectEncoding : Bool
  SafeRemoveNonGsmCharacters : Bool
  OriginatorSettings : Option OriginatorSettings
  GasSettings : Option GasSettings
  SendWindow : Option SendWindow
  Parameters : List (String × String)
  deriving DecidableEq, Repr

/-- `Message` that will be sent using the `SmsGatewayClient`. -/
structure Message where
  Recipient : String
  Content : String
  Price : Int
  ClientReference : String
  Settings : Option Settings
  deriving DecidableEq, Repr

/-- `smsGatewayRequest` contains common parameters (wire envelope, not
exposed to callers). -/
structure smsGatewayRequest where
  ServiceID : Int
  Username : String
  Password : String
  BatchReference : String
  Messages : List Message
  deriving DecidableEq, Repr

/-- `MessageStatus` for a message. -/
structure MessageStatus where
  StatusCode : Int
  StatusMessage : String
  ClientReference : String
  Recipient : String
  MessageID : String
  SessionID : String
  SequenceIndex : Int
  deriving DecidableEq, Repr

/-- `SmsGatewayResponse` is returned from the `Send` method. -/
structure SmsGatewayResponse where
  BatchReference : String
  MessageStatus : List MessageStatus
  deriving DecidableEq, Repr

/-- The zero value `SmsGatewayResponse\x7b\x7d` returned by `Send` alongside
every error. -/
def SmsGatewayResponse.zero : SmsGatewayResponse :=
  { BatchReference := "", MessageStatus := [] }

/-- The zero value `Message\x7b\x7d` (Go default-valued message). -/
def Message.goZero : Message :=
  { Recipient := "", Content := "", Price := 0, ClientReference := "", Settings := none }

/-- The zero value `Settings\x7b\x7d`. -/
def Settings.goZero : Settings :=
  { Priority := 0, Validity := 0, Differentiator := "", Age := 0, NewSession := false,
    SessionID := "", InvoiceNode := "", AutoDetectEncoding := false,
    SafeRemoveNonGsmCharacters := false, OriginatorSettings := none, GasSettings := none,
    SendWindow := none, Parameters := [] }

/-! ### Marshalling (`encoding/json` with the source's struct tags)

Go's `json.Marshal` emits struct fields in declaration order; a field tagged
`omitempty` is omitted when its value is the zero value of its type (`0`,
`false`, `""`, nil pointer, nil or empty map).  Marshalling fails only when a
`time.Time` has a year outside `[0, 9999]`. -/

/-- Field list for a string field tagged `omitempty`. -/
def omitemptyStr (key s : String) : List (String × Json) :=
  if s = "" then [] else [(key, Json.str s)]

/-- Field list for an `int` field tagged `omitempty`. -/
def omitemptyInt (key : String) (n : Int) : List (String × Json) :=
  if n = 0 then [] else [(key, Json.num n)]

/-- Field list for a `bool` field tagged `omitempty`. -/
def omitemptyBool (key : String) (b : Bool) : List (String × Json) :=
  if b then [(key, Json.bool true)] else []

/-- Insertion sort by key, mirroring Go's sorted map-key marshalling. -/
def insertByKey (p : String × String) : List (String × String) → List (String × String)
  | [] => [p]
  | q :: qs => if p.1 ≤ q.1 then p :: q :: qs else q :: insertByKey p qs

/-- Sort map entries by key (Go marshals `map[string]string` keys sorted). -/
def sortByKey : List (String × String) → List (String × String)
  | [] => []
  | p :: ps => insertByKey p (sortByKey ps)

/-- Marshal `OriginatorSettings` (`originatorType`, `originator`; no
`omitempty` on either field). -/
def OriginatorSettings.toJson (o : OriginatorSettings) : Json :=
  Json.obj [("originatorType", Json.str o.OriginatorType), ("originator", Json.str o.Originator)]

/-- Marshal `GasSettings` (`serviceCode`; `description,omitempty`). -/
def GasSettings.toJson (g : GasSettings) : Json :=
  Json.obj ([("serviceCode", Json.str g.ServiceCode)] ++ omitemptyStr "description" g.Description)

/-- Marshal the `map[string]string` parameters field (sorted keys). -/
def paramsToJson (ps : List (String × String)) : Json :=
  Json.obj ((sortByKey ps).map (fun p => (p.1, Json.str p.2)))

/-- Field list for a nested `omitempty` pointer field: omitted when nil. -/
def optObjField (key : String) (o : Option α) (f : α → Json) : List (String × Json) :=
  match o with
  | none => []
  | some a => [(key, f a)]

/-- Field list for the `map[string]string` parameters field tagged
`omitempty` (a nil or empty map is omitted). -/
def paramsField (ps : List (String × String)) : List (String × Json) :=
  if ps = [] then [] else [("parameter", paramsToJson ps)]

/-- Marshal an `omitempty` `*time.Time` field: omitted when nil, otherwise
its `MarshalJSON` (which may fail). -/
def optTimeField (key : String) : Option GoTime → Except String (List (String × Json))
  | none => Except.ok []
  | some t => (t.marshalJSON).map (fun j => [(key, j)])

/-- Marshal `SendWindow`: `startDate` always present, `startTime`,
`stopDate`, `stopTime` tagged `omitempty` on `*time.Time` (omitted when
nil). -/
def SendWindow.marshal (w : SendWindow) : Except String Json :=
  match w.StartDate.marshalJSON with
  | Except.error e => Except.error e
  | Except.ok sd =>
    match optTimeField "startTime" w.StartTime with
    | Except.error e => Except.error e
    | Except.ok st =>
      match optTimeField "stopDate" w.StopDate with
      | Except.error e => Except.error e
      | Except.ok sd2 =>
        match optTimeField "stopTime" w.StopTime with
        | Except.error e => Except.error e
        | Except.ok st2 => Except.ok (Json.obj ([("startDate", sd)] ++ st ++ sd2 ++ st2))

/-- The field list of a marshalled `Settings`, in the field order of the
source struct (every field is tagged `omitempty`); `sw` is the already
marshalled `sendWindow` slot (`[]` or a single field). -/
def Settings.fieldList (s : Settings) (sw : List (String × Json)) : List (String × Json) :=
  omitemptyInt "priority" s.Priority ++
  omitemptyInt "validity" s.Validity ++
  omitemptyStr "differentiator" s.Differentiator ++
  omitemptyInt "age" s.Age ++
  omitemptyBool "newSession" s.NewSession ++
  omitemptyStr "sessionId" s.SessionID ++
  omitemptyStr "invoiceNode" s.InvoiceNode ++
  omitemptyBool "autoDetectEncoding" s.AutoDetectEncoding ++
  omitemptyBool "safeRemoveNonGsmCharacters" s.SafeRemoveNonGsmCharacters ++
  optObjField "originatorSettings" s.OriginatorSettings OriginatorSettings.toJson ++
  optObjField "gasSettings" s.GasSettings GasSettings.toJson ++
  sw ++
  paramsField s.Parameters

/-- Marshal `Settings`.  Only the nested `sendWindow` can fail (it is the
only field reaching a `time.Time`). -/
def Settings.marshal (s : Settings) : Except String Json :=
  match s.SendWindow with
  | none => Except.ok (Json.obj (Settings.fieldList s []))
  | some w =>
    match w.marshal with
    | Except.error e => Except.error e
    | Except.ok j => Except.ok (Json.obj (Settings.fieldList s [("sendWindow", j)]))

/-- The field list of a marshalled `Message`: `recipient`, `content`,
`price` always present; `clientReference,omitempty`; `sf` is the already
marshalled `settings` slot. -/
def Message.fieldList (m : Message) (sf : List (String × Json)) : List (String × Json) :=
  [("recipient", Json.str m.Recipient),
   ("content", Json.str m.Content),
   ("price", Json.num m.Price)] ++
  omitemptyStr "clientReference" m.ClientReference ++ sf

/-- Marshal `Message` (`settings,omitempty`: a nil pointer is omitted, a
non-nil pointer to an all-zero `Settings` still emits the key). -/
def Message.marshal (m : Message) : Except String Json :=
  match m.Settings with
  | none => Except.ok (Json.obj (Message.fieldList m []))
  | some s =>
    match s.marshal with
    | Except.error e => Except.error e
    | Except.ok j => Except.ok (Json.obj (Message.fieldList m [("settings", j)]))

/-- Marshal the elements of the `message` array in order, failing on the
first element whose marshalling fails (as Go's array encoder does). -/
def marshalMessages : List Message → Except String (List Json)
  | [] => Except.ok []
  | m :: rest =>
    match m.marshal with
    | Except.error e => Except.error e
    | Except.ok j =>
      match marshalMessages rest with
      | Except.error e => Except.error e
      | Except.ok js => Except.ok (j :: js)

/-- Marshal the wire envelope `smsGatewayRequest`: `serviceId`, `username`,
`password` always present, `batchReference,omitempty`, `message` (the array
of messages, no `omitempty`). -/
def smsGatewayRequest.marshal (r : smsGatewayRequest) : Except String Json :=
  match marshalMessages r.Messages with
  | Except.error e => Except.error e
  | Except.ok ms =>
    Except.ok (Json.obj (
      [("serviceId", Json.num r.ServiceID),
       ("username", Json.str r.Username),
       ("password", Json.str r.Password)] ++
      omitemptyStr "batchReference" r.BatchReference ++
      [("message", Json.arr ms)]))

/-! ### JSON parsing of the response body

`Send` reads the response with `json.NewDecoder(response.Body).Decode`,
which parses one JSON value from the stream (trailing data is left unread)
and then unmarshals it.  An empty body yields `io.EOF`; malformed JSON
yields a `json.SyntaxError`; a value of the wrong shape yields an
`UnmarshalTypeError`.  All three surface as the error returned by `Decode`. -/

/-- JSON whitespace. -/
def isWs (c : Char) : Bool :=
  c == ' ' || c == Char.ofNat 9 || c == Char.ofNat 10 || c == Char.ofNat 13

/-- Drop leading JSON whitespace. -/
def skipWs : List Char → List Char
  | [] => []
  | c :: cs => if isWs c then skipWs cs else c :: cs

/-- Value of a hexadecimal digit. -/
def hexVal (c : Char) : Option Nat :=
  if c.isDigit then some (c.toNat - 48)
  else if 'a' ≤ c && c ≤ 'f' then some (c.toNat - 87)
  else if 'A' ≤ c && c ≤ 'F' then some (c.toNat - 55)
  else none

/-- Parse the body of a JSON string literal (after the opening quote) up to
and including the closing quote; returns the decoded characters and the
remaining input.  Fueled: each step consumes input. -/
def parseStringBody : Nat → List Char → Option (List Char × List Char)
  | 0, _ => none
  | _, [] => none
  | fuel + 1, c :: cs =>
    if c == quoteChar then some ([], cs)
    else if c == backslashChar then
      match cs with
      | [] => none
      | e :: cs2 =>
        if e == quoteChar then
          (parseStringBody fuel cs2).map (fun p => (quoteChar :: p.1, p.2))
        else if e == backslashChar then
          (parseStringBody fuel cs2).map (fun p => (backslashChar :: p.1, p.2))
        else if e == '/' then
          (parseStringBody fuel cs2).map (fun p => ('/' :: p.1, p.2))
        else if e == 'n' then
          (parseStringBody fuel cs2).map (fun p => (Char.ofNat 10 :: p.1, p.2))
        else if e == 't' then
          (parseStringBody fuel cs2).map (fun p => (Char.ofNat 9 :: p.1, p.2))
        else if e == 'r' then
          (parseStringBody fuel cs2).map (fun p => (Char.ofNat 13 :: p.1, p.2))
        else if e == 'b' then
          (parseStringBody fuel cs2).map (fun p => (Char.ofNat 8 :: p.1, p.2))
        else if e == 'f' then
          (parseStringBody fuel cs2).map (fun p => (Char.ofNat 12 :: p.1, p.2))
        else if e == 'u' then
          match cs2 with
          | h1 :: h2 :: h3 :: h4 :: cs3 =>
            match hexVal h1, hexVal h2, hexVal h3, hexVal h4 with
            | some a, some b, some c3, some d =>
              let code := ((a * 16 + b) * 16 + c3) * 16 + d
              (parseStringBody fuel cs3).map
                (fun p => ((if h : code.isValidChar then Char.ofNatAux code h
                            else Char.ofNat 65533) :: p.1, p.2))
            | _, _, _, _ => none
          | _ => none
        else none
    else if c.toNat < 32 then none
    else (parseStringBody fuel cs).map (fun p => (c :: p.1, p.2))

/-- Parse a fractional part `.digits` if present; returns consumed
characters and the remaining input. -/
def parseFrac (cs : List Char) : Option (List Char × List Char) :=
  match cs with
  | c :: rest =>
    if c == '.' then
      let p := rest.span Char.isDigit
      if p.1.isEmpty then none else some ('.' :: p.1, p.2)
    else some ([], cs)
  | [] => some ([], [])

/-- Parse an exponent part `[eE][+-]?digits` if present. -/
def parseExp (cs : List Char) : Option (List Char × List Char) :=
  match cs with
  | c :: rest =>
    if c == 'e' || c == 'E' then
      let signed : List Char × List Char :=
        match rest with
        | s :: r2 => if s == '+' || s == '-' then ([s], r2) else ([], rest)
        | [] => ([], rest)
      let p := signed.2.span Char.isDigit
      if p.1.isEmpty then none else some (c :: signed.1 ++ p.1, p.2)
    else some ([], cs)
  | [] => some ([], [])

/-- Decimal digits to a natural number. -/
def digitsToNat (ds : List Char) : Nat :=
  ds.foldl (fun a c => a * 10 + (c.toNat - 48)) 0

/-- Parse a JSON number.  A plain integer literal becomes `Json.num`; a
literal with a fraction or exponent becomes `Json.numRaw` (never produced by
the request serializer).  Leading zeros are rejected, as in Go. -/
def parseNumber (cs : List Char) : Option (Json × List Char) :=
  let signed : Bool × List Char :=
    match cs with
    | c :: rest => if c == '-' then (true, rest) else (false, cs)
    | [] => (false, cs)
  let p := signed.2.span Char.isDigit
  if p.1.isEmpty then none
  else if p.1.length > 1 && p.1.headD ' ' == '0' then none
  else
    match parseFrac p.2 with
    | none => none
    | some (frac, cs3) =>
      match parseExp cs3 with
      | none => none
      | some (ex, cs4) =>
        if frac.isEmpty && ex.isEmpty then
          let n : Int := Int.ofNat (digitsToNat p.1)
          some (Json.num (if signed.1 then -n else n), cs4)
        else
          some (Json.numRaw (String.mk ((if signed.1 then ['-'] else []) ++ p.1 ++ frac ++ ex)), cs4)

mutual

/-- Parse one JSON value starting at the first non-whitespace character. -/
def parseValue : Nat → List Char → Option (Json × List Char)
  | 0, _ => none
  | fuel + 1, cs =>
    match cs with
    | [] => none
    | c :: rest =>
      if c == 'n' then
        match rest with
        | 'u' :: 'l' :: 'l' :: r => some (Json.null, r)
        | _ => none
      else if c == 't' then
        match rest with
        | 'r' :: 'u' :: 'e' :: r => some (Json.bool true, r)
        | _ => none
      else if c == 'f' then
        match rest with
        | 'a' :: 'l' :: 's' :: 'e' :: r => some (Json.bool false, r)
        | _ => none
      else if c == quoteChar then
        match parseStringBody (rest.length + 1) rest with
        | some (s, r) => some (Json.str (String.mk s), r)
        | none => none
      else if c == '[' then
        match skipWs rest with
        | c2 :: r3 =>
          if c2 == ']' then some (Json.arr [], r3)
          else
            match parseArrElems fuel (c2 :: r3) with
            | some (js, r4) => some (Json.arr js, r4)
            | none => none
        | [] => none
      else if c == lbraceChar then
        match skipWs rest with
        | c2 :: r3 =>
          if c2 == rbraceChar then some (Json.obj [], r3)
          else
            match parseObjFields fuel (c2 :: r3) with
            | some (fs, r4) => some (Json.obj fs, r4)
            | none => none
        | [] => none
      else if c == '-' || c.isDigit then parseNumber cs
      else none

/-- Parse `value (, value)* ]` inside an array (input starts at a value). -/
def parseArrElems : Nat → List Char → Option (List Json × List Char)
  | 0, _ => none
  | fuel + 1, cs =>
    match parseValue fuel (skipWs cs) with
    | none => none
    | some (j, r) =>
      match skipWs r with
      | c :: r2 =>
        if c == ',' then
          match parseArrElems fuel r2 with
          | some (js, r3) => some (j :: js, r3)
          | none => none
        else if c == ']' then some ([j], r2)
        else none
      | [] => none

/-- Parse `"key": value (, "key": value)* \x7d` inside an object (input
starts at a key). -/
def parseObjFields : Nat → List Char → Option (List (String × Json) × List Char)
  | 0, _ => none
  | fuel + 1, cs =>
    match skipWs cs with
    | c :: r =>
      if c == quoteChar then
        match parseStringBody (r.length + 1) r with
        | some (k, r2) =>
          match skipWs r2 with
          | c2 :: r3 =>
            if c2 == ':' then
              match parseValue fuel (skipWs r3) with
              | some (v, r4) =>
                match skipWs r4 with
                | c3 :: r5 =>
                  if c3 == ',' then
                    match parseObjFields fuel r5 with
                    | some (fs, r6) => some ((String.mk k, v) :: fs, r6)
                    | none => none
                  else if c3 == rbraceChar then some ([(String.mk k, v)], r5)
                  else none
                | [] => none
              | none => none
            else none
          | [] => none
        | none => none
      else none
    | [] => none

end

/-- `json.NewDecoder(body).Decode`'s reading step: parse the first JSON
value of the body (an empty body is `io.EOF`; trailing data is left in the
stream and not an error for a single `Decode` call). -/
def parseOneJson (body : String) : Except String Json :=
  match skipWs body.data with
  | [] => Except.error "EOF"
  | c :: cs =>
    match parseValue (cs.length + 2) (c :: cs) with
    | some (j, _) => Except.ok j
    | none => Except.error "invalid character in JSON body"

/-! ### Unmarshalling into `SmsGatewayResponse`

Go matches JSON keys to struct fields by the `json` tag, case-insensitively
(exact match preferred, but every matching key assigns to the field, later
keys overwriting earlier ones); unknown keys are ignored; a JSON `null`
leaves the target unchanged. -/

/-- ASCII lower-casing of one character. -/
def charToLower (c : Char) : Char :=
  if 'A' ≤ c && c ≤ 'Z' then Char.ofNat (c.toNat + 32) else c

/-- Key-to-field match (exact or case-insensitive, as Go's fold; the fold is
modelled on ASCII, which covers every tag of the source). -/
def keyMatches (k field : String) : Bool :=
  k == field || k.data.map charToLower == field.data.map charToLower

/-- Unmarshal a JSON value into a `string` field holding `cur`. -/
def foldStr (cur : String) (v : Json) : Except String String :=
  match v with
  | Json.str s => Except.ok s
  | Json.null => Except.ok cur
  | _ => Except.error "json: cannot unmarshal value into Go value of type string"

/-- Unmarshal a JSON value into an `int` field holding `cur` (non-integer
numbers and out-of-range values are `UnmarshalTypeError`s). -/
def foldInt (cur : Int) (v : Json) : Except String Int :=
  match v with
  | Json.num n =>
    if n < -(2 ^ 63) || n ≥ 2 ^ 63 then
      Except.error "json: cannot unmarshal number: overflows Go value of type int"
    else Except.ok n
  | Json.numRaw _ => Except.error "json: cannot unmarshal number into Go value of type int"
  | Json.null => Except.ok cur
  | _ => Except.error "json: cannot unmarshal value into Go value of type int"

/-- The zero value `MessageStatus\x7b\x7d`. -/
def MessageStatus.zero : MessageStatus :=
  { StatusCode := 0, StatusMessage := "", ClientReference := "", Recipient := "",
    MessageID := "", SessionID := "", SequenceIndex := 0 }

/-- Unmarshal one object field into a `MessageStatus`. -/
def MessageStatus.decodeField (r : MessageStatus) (kv : String × Json) : Except String MessageStatus :=
  if keyMatches kv.1 "statusCode" then
    (foldInt r.StatusCode kv.2).map (fun n => { r with StatusCode := n })
  else if keyMatches kv.1 "statusMessage" then
    (foldStr r.StatusMessage kv.2).map (fun s => { r with StatusMessage := s })
  else if keyMatches kv.1 "clientReference" then
    (foldStr r.ClientReference kv.2).map (fun s => { r with ClientReference := s })
  else if keyMatches kv.1 "recipient" then
    (foldStr r.Recipient kv.2).map (fun s => { r with Recipient := s })
  else if keyMatches kv.1 "messageId" then
    (foldStr r.MessageID kv.2).map (fun s => { r with MessageID := s })
  else if keyMatches kv.1 "sessionId" then
    (foldStr r.SessionID kv.2).map (fun s => { r with SessionID := s })
  else if keyMatches kv.1 "sequenceIndex" then
    (foldInt r.SequenceIndex kv.2).map (fun n => { r with SequenceIndex := n })
  else Except.ok r

/-- Unmarshal a JSON value into a `MessageStatus` (array element). -/
def MessageStatus.decode (j : Json) : Except String MessageStatus :=
  match j with
  | Json.obj fs => fs.foldlM MessageStatus.decodeField MessageStatus.zero
  | Json.null => Except.ok MessageStatus.zero
  | _ => Except.error "json: cannot unmarshal value into Go value of type smsgwclient.MessageStatus"

/-- Unmarshal a JSON value into the `[]MessageStatus` field holding `cur`. -/
def decodeStatusList (cur : List MessageStatus) (j : Json) : Except String (List MessageStatus) :=
  match j with
  | Json.arr xs => xs.mapM MessageStatus.decode
  | Json.null => Except.ok cur
  | _ => Except.error "json: cannot unmarshal value into Go value of type []smsgwclient.MessageStatus"

/-- Unmarshal one object field into an `SmsGatewayResponse`. -/
def SmsGatewayResponse.decodeField (r : SmsGatewayResponse) (kv : String × Json) : Except String SmsGatewayResponse :=
  if keyMatches kv.1 "batchReference" then
    (foldStr r.BatchReference kv.2).map (fun s => { r with BatchReference := s })
  else if keyMatches kv.1 "messageStatus" then
    (decodeStatusList r.MessageStatus kv.2).map (fun ms => { r with MessageStatus := ms })
  else Except.ok r

/-- Unmarshal a parsed JSON value into `SmsGatewayResponse` (the
`decoder.Decode(&gatewayResponse)` step after reading one value). -/
def SmsGatewayResponse.decode (j : Json) : Except String SmsGatewayResponse :=
  match j with
  | Json.null => Except.ok SmsGatewayResponse.zero
  | Json.obj fs => fs.foldlM SmsGatewayResponse.decodeField SmsGatewayResponse.zero
  | _ => Except.error "json: cannot unmarshal value into Go value of type smsgwclient.SmsGatewayResponse"

/-! ### The client and `Send` -/

/-- `SmsGatewayClient` for sending messages through the Intelecom SMS
Gateway.  The `http.Client` it holds is modelled as the transport function
passed to `Send`. -/
structure SmsGatewayClient where
  serviceID : Int
  baseURL : String
  username : String
  password : String
  deriving DecidableEq, Repr

/-- `MakeSmsGatewayClient` returns an `SmsGatewayClient`. -/
def MakeSmsGatewayClient (baseURL : String) (serviceID : Int) (username password : String) : SmsGatewayClient :=
  { baseURL := baseURL, serviceID := serviceID, username := username, password := password }

/-- The HTTP request built by `createRequest`: a POST with the two headers
added in the source. -/
structure HttpRequest where
  method : String
  url : String
  contentType : String
  accept : String
  body : String
  deriving DecidableEq, Repr

/-- `createRequest` builds the POST request with `Content-Type` and
`Accept` headers set to `application/json`. -/
def createRequest (url : String) (buf : String) : HttpRequest :=
  { method := "POST", url := url, contentType := "application/json",
    accept := "application/json", body := buf }

/-- Outcome of one `http.Client.Do` call: a transport-level error (in which
case Go's `Do` returns a nil `*http.Response`), or a response with a status
code and a body. -/
inductive DoResult where
  | err (msg : String)
  | resp (statusCode : Int) (body : String)
  deriving DecidableEq, Repr

/-- The dynamic kinds of `error` values `Send` can return: a
`*json.MarshalerError` from `json.Marshal`, an `errors.errorString` from
`errors.New`, or an error from `decoder.Decode` (`io.EOF`,
`*json.SyntaxError` or `*json.UnmarshalTypeError`). -/
inductive GoError where
  | marshalError (msg : String)
  | errorString (msg : String)
  | decodeError (msg : String)
  deriving DecidableEq, Repr

/-- How one call of `Send` ends: a runtime panic, an error return (with the
response value returned alongside it), or a successful return. -/
inductive SendResult where
  | panicked (msg : String)
  | err (resp : SmsGatewayResponse) (e : GoError)
  | ok (resp : SmsGatewayResponse)
  deriving DecidableEq, Repr

/-- Result of `Send` together with the list of HTTP requests it handed to
the transport, in order. -/
structure SendOutcome where
  result : SendResult
  requests : List HttpRequest
  deriving DecidableEq, Repr

/-- The wire envelope `Send` builds: stored configuration plus the caller's
messages; the batch reference is never assigned, so it stays the zero value
`""`. -/
def SmsGatewayClient.envelope (client : SmsGatewayClient) (messages : List Message) : smsGatewayRequest :=
  { ServiceID := client.serviceID, Username := client.username,
    Password := client.password, BatchReference := "", Messages := messages }

/-- `Send` is used to send one or more messages using the `GatewayClient`.
`doHttp` is the `client.httpClient.Do` transport.  Control flow of the
source, line by line: build the envelope from the stored configuration;
`json.Marshal` it, returning the error on failure; build the POST request;
call `Do`; the source then runs `defer response.Body.Close()` BEFORE
checking `err`, so on a transport failure (`Do` returns a nil response) the
deferred call dereferences a nil pointer and the goroutine panics; otherwise
a non-200 status returns `errors.New("Status code: " + strconv.Itoa(...))`,
and a 200 response is decoded, returning either the decode error or the
response. -/
def SmsGatewayClient.Send (client : SmsGatewayClient) (doHttp : HttpRequest → DoResult)
    (messages : List Message) : SendOutcome :=
  match (client.envelope messages).marshal with
  | Except.error e =>
    { result := SendResult.err SmsGatewayResponse.zero (GoError.marshalError e), requests := [] }
  | Except.ok buffer =>
    let request := createRequest (client.baseURL ++ "/sendMessages") buffer.render
    match doHttp request with
    | DoResult.err _ =>
      { result := SendResult.panicked "runtime error: invalid memory address or nil pointer dereference",
        requests := [request] }
    | DoResult.resp statusCode body =>
      if statusCode ≠ 200 then
        { result := SendResult.err SmsGatewayResponse.zero
            (GoError.errorString ("Status code: " ++ toString statusCode)),
          requests := [request] }
      else
        match parseOneJson body with
        | Except.error e =>
          { result := SendResult.err SmsGatewayResponse.zero (GoError.decodeError e),
            requests := [request] }
        | Except.ok j =>
          match SmsGatewayResponse.decode j with
          | Except.error e =>
            { result := SendResult.err SmsGatewayResponse.zero (GoError.decodeError e),
              requests := [request] }
          | Except.ok gatewayResponse =>
            { result := SendResult.ok gatewayResponse, requests := [request] }

/-! ### Auxiliary notions used by the statements below -/

/-- Key membership in a raw field list (`Json.hasKey` on the object). -/
def hasKeyL (fs : List (String × Json)) (k : String) : Bool :=
  fs.any (fun f => f.1 == k)

/-- Strip an expected prefix from a character list. -/
def stripPre : List Char → List Char → Option (List Char)
  | [], s => some s
  | _ :: _, [] => none
  | p :: ps, c :: cs => if p == c then stripPre ps cs else none

/-- Recover the numeric status code (as its decimal digits) from the error
`Send` returns on a non-200 response: the status error is the
`errors.errorString` whose message is `"Status code: "` followed by
`strconv.Itoa` of the code, so stripping that prefix identifies the error
kind and yields the code. -/
def errStatusCode (e : GoError) : Option (List Char) :=
  match e with
  | GoError.errorString s => stripPre ("Status code: ".data) s.data
  | _ => none

/-- Overwrite the `Age` field of a `Settings` (an explicit age-rating
assignment by the caller). -/
def Settings.setAge (s : Settings) (a : Int) : Settings :=
  { s with Age := a }

/-! ### Helper lemmas -/

theorem hasKey_obj (fs : List (String × Json)) (k : String) :
    Json.hasKey (Json.obj fs) k = hasKeyL fs k := rfl

theorem hasKeyL_nil (k : String) : hasKeyL [] k = false := rfl

theorem hasKeyL_append (a b : List (String × Json)) (k : String) :
    hasKeyL (a ++ b) k = (hasKeyL a k || hasKeyL b k) := by
  simp [hasKeyL, List.any_append]

theorem hasKeyL_single (key : String) (j : Json) (k : String) :
    hasKeyL [(key, j)] k = (key == k) := by
  simp [hasKeyL]

theorem hasKeyL_omitemptyStr (key v k : String) :
    hasKeyL (omitemptyStr key v) k = (!(v == "") && (key == k)) := by
  by_cases h : v = "" <;> simp [omitemptyStr, hasKeyL, h]

theorem hasKeyL_omitemptyInt (key : String) (n : Int) (k : String) :
    hasKeyL (omitemptyInt key n) k = (!(n == 0) && (key == k)) := by
  by_cases h : n = 0 <;> simp [omitemptyInt, hasKeyL, h]

theorem hasKeyL_omitemptyBool (key : String) (b : Bool) (k : String) :
    hasKeyL (omitemptyBool key b) k = (b && (key == k)) := by
  cases b <;> simp [omitemptyBool, hasKeyL]

theorem hasKeyL_optObjField (key : String) (o : Option α) (f : α → Json) (k : String) :
    hasKeyL (optObjField key o f) k = (o.isSome && (key == k)) := by
  cases o <;> simp [optObjField, hasKeyL]

theorem hasKeyL_paramsField (ps : List (String × String)) (k : String) :
    hasKeyL (paramsField ps) k = (!(ps == []) && ("parameter" == k)) := by
  by_cases h : ps = [] <;> simp [paramsField, hasKeyL, h]

theorem stripPre_append (p s : List Char) : stripPre p (p ++ s) = some s := by
  induction p with
  | nil => rfl
  | cons c cs ih => simp [stripPre, ih]

theorem hasKeyL_cons (key : String) (jv : Json) (fs : List (String × Json)) (k : String) :
    hasKeyL ((key, jv) :: fs) k = ((key == k) || hasKeyL fs k) := by
  simp [hasKeyL]

theorem goTime_marshalJSON_ok (t : GoTime) (j : Json) (h : t.marshalJSON = Except.ok j) :
    j = Json.str t.rfc3339 := by
  simp only [GoTime.marshalJSON] at h
  split at h
  · cases h
  · cases h; rfl

theorem optTimeField_ok (key : String) (o : Option GoTime) (l : List (String × Json))
    (h : optTimeField key o = Except.ok l) :
    (o = none ∧ l = []) ∨ (∃ t, o = some t ∧ l = [(key, Json.str t.rfc3339)]) := by
  cases o with
  | none =>
    simp only [optTimeField] at h
    cases h
    exact Or.inl ⟨rfl, rfl⟩
  | some t =>
    simp only [optTimeField] at h
    cases hmj : t.marshalJSON with
    | error e => rw [hmj] at h; simp [Except.map] at h
    | ok jt =>
      rw [hmj] at h
      simp only [Except.map] at h
      cases h
      exact Or.inr ⟨t, rfl, by rw [goTime_marshalJSON_ok t jt hmj]⟩

theorem optTimeField_ok_facts (key : String) (o : Option GoTime) (l : List (String × Json))
    (h : optTimeField key o = Except.ok l) :
    (o = none → l = []) ∧ (∀ k, ¬(k = key) → hasKeyL l k = false) := by
  rcases optTimeField_ok key o l h with ⟨_, hL⟩ | ⟨t, hO, hL⟩
  · subst hL; exact ⟨fun _ => rfl, fun _ _ => rfl⟩
  · subst hL
    refine ⟨fun hn => ?_, fun k hk => ?_⟩
    · rw [hO] at hn; cases hn
    · simp [hasKeyL]
      exact fun h' => hk h'.symm

theorem sendWindow_marshal_ok_shape (w : SendWindow) (j : Json)
    (h : SendWindow.marshal w = Except.ok j) :
    ∃ st sd2 st2 : List (String × Json),
      j = Json.obj ([("startDate", Json.str w.StartDate.rfc3339)] ++ st ++ sd2 ++ st2)
      ∧ (w.StartTime = none → st = []) ∧ (∀ k, ¬(k = "startTime") → hasKeyL st k = false)
      ∧ (w.StopDate = none → sd2 = []) ∧ (∀ k, ¬(k = "stopDate") → hasKeyL sd2 k = false)
      ∧ (w.StopTime = none → st2 = []) ∧ (∀ k, ¬(k = "stopTime") → hasKeyL st2 k = false) := by
  simp only [SendWindow.marshal] at h
  split at h
  · cases h
  rename_i sd hsd
  split at h
  · cases h
  rename_i st hst
  split at h
  · cases h
  rename_i sd2 hsd2
  split at h
  · cases h
  rename_i st2 hst2
  cases h
  obtain ⟨h1, h2⟩ := optTimeField_ok_facts _ _ _ hst
  obtain ⟨h3, h4⟩ := optTimeField_ok_facts _ _ _ hsd2
  obtain ⟨h5, h6⟩ := optTimeField_ok_facts _ _ _ hst2
  exact ⟨st, sd2, st2, by rw [goTime_marshalJSON_ok _ _ hsd], h1, h2, h3, h4, h5, h6⟩

theorem settings_marshal_ok_shape (s : Settings) (j : Json)
    (h : Settings.marshal s = Except.ok j) :
    ∃ sw : List (String × Json),
      j = Json.obj (Settings.fieldList s sw)
      ∧ (s.SendWindow = none → sw = [])
      ∧ (∀ k, ¬(k = "sendWindow") → hasKeyL sw k = false) := by
  simp only [Settings.marshal] at h
  split at h
  · cases h
    exact ⟨[], rfl, fun _ => rfl, fun _ _ => rfl⟩
  rename_i w hw
  split at h
  · cases h
  rename_i jw hjw
  cases h
  refine ⟨[("sendWindow", jw)], rfl, fun hn => ?_, fun k hk => ?_⟩
  · rw [hw] at hn; cases hn
  · simp [hasKeyL]
    exact fun h' => hk h'.symm

theorem message_marshal_ok_shape (m : Message) (j : Json)
    (h : Message.marshal m = Except.ok j) :
    ∃ sf : List (String × Json),
      j = Json.obj (Message.fieldList m sf)
      ∧ (m.Settings = none → sf = [])
      ∧ (∀ k, ¬(k = "settings") → hasKeyL sf k = false) := by
  simp only [Message.marshal] at h
  split at h
  · cases h
    exact ⟨[], rfl, fun _ => rfl, fun _ _ => rfl⟩
  rename_i s hs
  split at h
  · cases h
  rename_i js hjs
  cases h
  refine ⟨[("settings", js)], rfl, fun hn => ?_, fun k hk => ?_⟩
  · rw [hs] at hn; cases hn
  · simp [hasKeyL]
    exact fun h' => hk h'.symm

theorem request_marshal_ok_shape (r : smsGatewayRequest) (j : Json)
    (h : r.marshal = Except.ok j) :
    ∃ ms : List Json, marshalMessages r.Messages = Except.ok ms ∧
      j = Json.obj ([("serviceId", Json.num r.ServiceID),
        ("username", Json.str r.Username),
        ("password", Json.str r.Password)] ++
        omitemptyStr "batchReference" r.BatchReference ++
        [("message", Json.arr ms)]) := by
  simp only [smsGatewayRequest.marshal] at h
  split at h
  · cases h
  rename_i ms hms
  cases h
  exact ⟨ms, hms, rfl⟩

theorem send_requests_of_marshal_ok (client : SmsGatewayClient) (doHttp : HttpRequest → DoResult)
    (messages : List Message) (buffer : Json)
    (h : (client.envelope messages).marshal = Except.ok buffer) :
    (client.Send doHttp messages).requests
      = [createRequest (client.baseURL ++ "/sendMessages") buffer.render] := by
  simp only [SmsGatewayClient.Send, h]
  cases doHttp (createRequest (client.baseURL ++ "/sendMessages") buffer.render) with
  | err msg => rfl
  | resp status body =>
    dsimp only
    by_cases h200 : status ≠ 200
    · simp [h200]
    · rw [if_neg h200]
      cases parseOneJson body with
      | error e => rfl
      | ok j =>
        dsimp only
        cases SmsGatewayResponse.decode j with
        | error e => rfl
        | ok g => rfl

/-! ### Claim theorems -/

/-- C5: when the responder returns HTTP 200 with the body consisting of the
object with `batchReference` `"123abc"` and an empty `messageStatus` array,
`Send` with a single default-valued message returns a nil error and the
response with `BatchReference = "123abc"` and empty `MessageStatus` (the
setup of `TestErrorIsNilWhenOkResponse`). -/
theorem send_ok_response_parsed :
    ((MakeSmsGatewayClient "https://www.dummy-address.com" 0 "" "").Send
        (fun _ => DoResult.resp 200 "\x7b\"batchReference\":\"123abc\",\"messageStatus\":[]\x7d")
        [Message.goZero]).result
      = SendResult.ok { BatchReference := "123abc", MessageStatus := [] } := rfl

/-- C1 is violated by the code: on a transport failure `client.httpClient.Do`
returns a nil `*http.Response` together with the error, and the source runs
`defer response.Body.Close()` before checking the error, so `Send` panics
with a nil-pointer dereference instead of returning the transport error.
This theorem evaluates the embedding at such a failing input (a connection
refused during the one POST that was issued — no retry happens, the request
list has length 1). -/
theorem send_transport_failure_panics :
    ((MakeSmsGatewayClient "https://www.dummy-address.com" 0 "" "").Send
        (fun _ => DoResult.err "Post https://www.dummy-address.com/sendMessages: dial tcp: connection refused")
        [Message.goZero]).result
      = SendResult.panicked "runtime error: invalid memory address or nil pointer dereference"
    ∧ ((MakeSmsGatewayClient "https://www.dummy-address.com" 0 "" "").Send
        (fun _ => DoResult.err "Post https://www.dummy-address.com/sendMessages: dial tcp: connection refused")
        [Message.goZero]).requests.length = 1 :=
  ⟨rfl, rfl⟩

/-- C7: when JSON serialization of the request envelope fails, `Send`
returns the serialization error (with the zero response) and no HTTP request
is issued (the request list is empty). -/
theorem send_marshal_error_no_request :
    ∀ (client : SmsGatewayClient) (doHttp : HttpRequest → DoResult)
      (messages : List Message) (e : String),
      (client.envelope messages).marshal = Except.error e →
      client.Send doHttp messages
        = { result := SendResult.err SmsGatewayResponse.zero (GoError.marshalError e),
            requests := [] } := by
  intro client doHttp messages e h
  unfold SmsGatewayClient.Send
  rw [h]

/-- A message whose send window starts in year 10000, on which
`json.Marshal` of the envelope fails (`Time.MarshalJSON` rejects the
year). -/
def badWindowMessage : Message :=
  { Recipient := "", Content := "", Price := 0, ClientReference := "",
    Settings := some { Settings.goZero with
      SendWindow := some { StartDate := { year := 10000, rfc3339 := "" },
                           StartTime := none, StopDate := none, StopTime := none } } }

theorem send_marshal_error_no_request_witness :
    (MakeSmsGatewayClient "https://www.dummy-address.com" 0 "" "").Send
        (fun _ => DoResult.resp 200 "") [badWindowMessage]
      = { result := SendResult.err SmsGatewayResponse.zero
            (GoError.marshalError "json: error calling MarshalJSON for type time.Time: Time.MarshalJSON: year outside of range [0,9999]"),
          requests := [] } :=
  send_marshal_error_no_request _ _ _ _ rfl

/-- C10: whenever `Send` returns an error (on the serialization, non-200
status or deserialization paths — the transport path panics instead of
returning, see C1), the response value returned alongside it is the zero
`SmsGatewayResponse`; no partially populated response is ever returned with
an error. -/
theorem send_err_response_is_zero :
    ∀ (client : SmsGatewayClient) (doHttp : HttpRequest → DoResult)
      (messages : List Message) (r : SmsGatewayResponse) (e : GoError),
      (client.Send doHttp messages).result = SendResult.err r e →
      r = SmsGatewayResponse.zero := by
  intro client doHttp messages r e h
  simp only [SmsGatewayClient.Send] at h
  repeat' split at h
  all_goals simp_all

theorem send_err_response_is_zero_witness :
    ((MakeSmsGatewayClient "https://www.dummy-address.com" 0 "" "").Send
        (fun _ => DoResult.resp 500 "") [Message.goZero]).result
      = SendResult.err SmsGatewayResponse.zero (GoError.errorString "Status code: 500")
    ∧ SmsGatewayResponse.zero = SmsGatewayResponse.zero :=
  ⟨rfl, send_err_response_is_zero (MakeSmsGatewayClient "https://www.dummy-address.com" 0 "" "")
    (fun _ => DoResult.resp 500 "") [Message.goZero] SmsGatewayResponse.zero
    (GoError.errorString "Status code: 500") rfl⟩

/-- C3: whenever the transport yields a response whose status code is not
200, `Send` returns the status error built from that code (for every body,
which is therefore never parsed as a success payload), and the numeric code
is recoverable from the returned error via `errStatusCode`. -/
theorem send_non_200_returns_status_error :
    ∀ (client : SmsGatewayClient) (doHttp : HttpRequest → DoResult)
      (messages : List Message) (buffer : Json) (status : Int) (body : String),
      (client.envelope messages).marshal = Except.ok buffer →
      doHttp (createRequest (client.baseURL ++ "/sendMessages") buffer.render)
        = DoResult.resp status body →
      status ≠ 200 →
      (client.Send doHttp messages).result
          = SendResult.err SmsGatewayResponse.zero
              (GoError.errorString ("Status code: " ++ toString status))
        ∧ errStatusCode (GoError.errorString ("Status code: " ++ toString status))
          = some (toString status).data := by
  intro client doHttp messages buffer status body hm hdo hs
  constructor
  · simp only [SmsGatewayClient.Send, hm, hdo, if_pos hs]
  · simp only [errStatusCode]
    rw [String.data_append]
    exact stripPre_append _ _

theorem send_non_200_returns_status_error_witness :
    ((MakeSmsGatewayClient "https://www.dummy-address.com" 0 "" "").Send
        (fun _ => DoResult.resp 500 "") [Message.goZero]).result
      = SendResult.err SmsGatewayResponse.zero (GoError.errorString "Status code: 500")
    ∧ errStatusCode (GoError.errorString "Status code: 500") = some ['5', '0', '0'] :=
  send_non_200_returns_status_error
    (MakeSmsGatewayClient "https://www.dummy-address.com" 0 "" "")
    (fun _ => DoResult.resp 500 "") [Message.goZero]
    (Json.obj [("serviceId", Json.num 0), ("username", Json.str ""), ("password", Json.str ""),
      ("message", Json.arr [Json.obj [("recipient", Json.str ""), ("content", Json.str ""),
        ("price", Json.num 0)]])])
    500 "" rfl rfl (by decide)

/-- C4: on an HTTP 200 response whose body the decoder rejects — either the
body is not parseable JSON, or the parsed value does not unmarshal into the
response structure — `Send` returns the decoder's error (with the zero
response), not a success result. -/
theorem send_invalid_body_decode_error :
    ∀ (client : SmsGatewayClient) (doHttp : HttpRequest → DoResult)
      (messages : List Message) (buffer : Json) (body : String) (msg : String),
      (client.envelope messages).marshal = Except.ok buffer →
      doHttp (createRequest (client.baseURL ++ "/sendMessages") buffer.render)
        = DoResult.resp 200 body →
      (parseOneJson body = Except.error msg ∨
        (∃ j, parseOneJson body = Except.ok j ∧ SmsGatewayResponse.decode j = Except.error msg)) →
      (client.Send doHttp messages).result
        = SendResult.err SmsGatewayResponse.zero (GoError.decodeError msg) := by
  intro client doHttp messages buffer body msg hm hdo hp
  have h200 : ¬((200 : Int) ≠ 200) := by simp
  rcases hp with hp | ⟨j, hp, hd⟩
  · simp only [SmsGatewayClient.Send, hm, hdo, if_neg h200, hp]
  · simp only [SmsGatewayClient.Send, hm, hdo, if_neg h200, hp, hd]

theorem send_invalid_body_decode_error_witness :
    ((MakeSmsGatewayClient "https://www.dummy-address.com" 0 "" "").Send
        (fun _ => DoResult.resp 200 "not json") [Message.goZero]).result
      = SendResult.err SmsGatewayResponse.zero
          (GoError.decodeError "invalid character in JSON body") :=
  send_invalid_body_decode_error
    (MakeSmsGatewayClient "https://www.dummy-address.com" 0 "" "")
    (fun _ => DoResult.resp 200 "not json") [Message.goZero]
    (Json.obj [("serviceId", Json.num 0), ("username", Json.str ""), ("password", Json.str ""),
      ("message", Json.arr [Json.obj [("recipient", Json.str ""), ("content", Json.str ""),
        ("price", Json.num 0)]])])
    "not json" "invalid character in JSON body" rfl rfl (Or.inl rfl)

/-- C8: a `SendWindow` with only the start date set (start time, stop date
and stop time all nil) marshals to an object holding exactly the `startDate`
key — none of `startTime`, `stopDate`, `stopTime` appear. -/
theorem sendwindow_only_start_date :
    ∀ (w : SendWindow) (j : Json),
      SendWindow.marshal w = Except.ok j →
      w.StartTime = none → w.StopDate = none → w.StopTime = none →
      j = Json.obj [("startDate", Json.str w.StartDate.rfc3339)]
      ∧ j.hasKey "startDate" = true
      ∧ j.hasKey "startTime" = false
      ∧ j.hasKey "stopDate" = false
      ∧ j.hasKey "stopTime" = false := by
  intro w j hm h1 h2 h3
  rcases sendWindow_marshal_ok_shape w j hm with ⟨st, sd2, st2, rfl, e1, _, e2, _, e3, _⟩
  rw [e1 h1, e2 h2, e3 h3]
  refine ⟨by simp, ?_, ?_, ?_, ?_⟩ <;> simp [Json.hasKey, hasKeyL]

theorem sendwindow_only_start_date_witness :
    (Json.obj [("startDate", Json.str "2024-05-01T00:00:00Z")]).hasKey "startDate" = true
    ∧ (Json.obj [("startDate", Json.str "2024-05-01T00:00:00Z")]).hasKey "startTime" = false
    ∧ (Json.obj [("startDate", Json.str "2024-05-01T00:00:00Z")]).hasKey "stopDate" = false
    ∧ (Json.obj [("startDate", Json.str "2024-05-01T00:00:00Z")]).hasKey "stopTime" = false := by
  have h := sendwindow_only_start_date
    { StartDate := { year := 2024, rfc3339 := "2024-05-01T00:00:00Z" },
      StartTime := none, StopDate := none, StopTime := none }
    (Json.obj [("startDate", Json.str "2024-05-01T00:00:00Z")]) rfl rfl rfl rfl
  exact ⟨h.2.1, h.2.2.1, h.2.2.2.1, h.2.2.2.2⟩

/-- C2: every optional (`omitempty`) field left unset — at its Go zero
value — is entirely absent as a key from the marshalled JSON of the struct
that declares it: `clientReference` and `settings` on `Message`; all
thirteen optional fields of `Settings`; the three optional times of
`SendWindow`; `description` on `GasSettings`; `batchReference` on the
envelope. -/
theorem unset_optional_fields_omitted :
    (∀ (m : Message) (j : Json), Message.marshal m = Except.ok j →
      (m.ClientReference = "" → j.hasKey "clientReference" = false) ∧
      (m.Settings = none → j.hasKey "settings" = false)) ∧
    (∀ (s : Settings) (j : Json), Settings.marshal s = Except.ok j →
      (s.Priority = 0 → j.hasKey "priority" = false) ∧
      (s.Validity = 0 → j.hasKey "validity" = false) ∧
      (s.Differentiator = "" → j.hasKey "differentiator" = false) ∧
      (s.Age = 0 → j.hasKey "age" = false) ∧
      (s.NewSession = false → j.hasKey "newSession" = false) ∧
      (s.SessionID = "" → j.hasKey "sessionId" = false) ∧
      (s.InvoiceNode = "" → j.hasKey "invoiceNode" = false) ∧
      (s.AutoDetectEncoding = false → j.hasKey "autoDetectEncoding" = false) ∧
      (s.SafeRemoveNonGsmCharacters = false → j.hasKey "safeRemoveNonGsmCharacters" = false) ∧
      (s.OriginatorSettings = none → j.hasKey "originatorSettings" = false) ∧
      (s.GasSettings = none → j.hasKey "gasSettings" = false) ∧
      (s.SendWindow = none → j.hasKey "sendWindow" = false) ∧
      (s.Parameters = [] → j.hasKey "parameter" = false)) ∧
    (∀ (w : SendWindow) (j : Json), SendWindow.marshal w = Except.ok j →
      (w.StartTime = none → j.hasKey "startTime" = false) ∧
      (w.StopDate = none → j.hasKey "stopDate" = false) ∧
      (w.StopTime = none → j.hasKey "stopTime" = false)) ∧
    (∀ g : GasSettings, g.Description = "" → (g.toJson).hasKey "description" = false) ∧
    (∀ (r : smsGatewayRequest) (j : Json), r.marshal = Except.ok j →
      r.BatchReference = "" → j.hasKey "batchReference" = false) := by
  refine ⟨?_, ?_, ?_, ?_, ?_⟩
  · intro m j h
    rcases message_marshal_ok_shape m j h with ⟨sf, rfl, hsfnone, hsfkeys⟩
    constructor
    · intro hcr
      simp [hasKey_obj, Message.fieldList, hasKeyL_append, hasKeyL_cons, hasKeyL_nil,
        hasKeyL_omitemptyStr, hcr, hsfkeys "clientReference" (by decide)]
    · intro hst
      rw [hsfnone hst]
      simp [hasKey_obj, Message.fieldList, hasKeyL_append, hasKeyL_cons, hasKeyL_nil,
        hasKeyL_omitemptyStr]
  · intro s j h
    rcases settings_marshal_ok_shape s j h with ⟨sw, rfl, hswnone, hswkeys⟩
    refine ⟨fun hu => ?_, fun hu => ?_, fun hu => ?_, fun hu => ?_, fun hu => ?_, fun hu => ?_,
      fun hu => ?_, fun hu => ?_, fun hu => ?_, fun hu => ?_, fun hu => ?_, fun hu => ?_,
      fun hu => ?_⟩
    case _ =>
      simp [hasKey_obj, Settings.fieldList, hasKeyL_append, hasKeyL_omitemptyInt,
        hasKeyL_omitemptyStr, hasKeyL_omitemptyBool, hasKeyL_optObjField, hasKeyL_paramsField,
        hu, hswkeys "priority" (by decide)]
    case _ =>
      simp [hasKey_obj, Settings.fieldList, hasKeyL_append, hasKeyL_omitemptyInt,
        hasKeyL_omitemptyStr, hasKeyL_omitemptyBool, hasKeyL_optObjField, hasKeyL_paramsField,
        hu, hswkeys "validity" (by decide)]
    case _ =>
      simp [hasKey_obj, Settings.fieldList, hasKeyL_append, hasKeyL_omitemptyInt,
        hasKeyL_omitemptyStr, hasKeyL_omitemptyBool, hasKeyL_optObjField, hasKeyL_paramsField,
        hu, hswkeys "differentiator" (by decide)]
    case _ =>
      simp [hasKey_obj, Settings.fieldList, hasKeyL_append, hasKeyL_omitemptyInt,
        hasKeyL_omitemptyStr, hasKeyL_omitemptyBool, hasKeyL_optObjField, hasKeyL_paramsField,
        hu, hswkeys "age" (by decide)]
    case _ =>
      simp [hasKey_obj, Settings.fieldList, hasKeyL_append, hasKeyL_omitemptyInt,
        hasKeyL_omitemptyStr, hasKeyL_omitemptyBool, hasKeyL_optObjField, hasKeyL_paramsField,
        hu, hswkeys "newSession" (by decide)]
    case _ =>
      simp [hasKey_obj, Settings.fieldList, hasKeyL_append, hasKeyL_omitemptyInt,
        hasKeyL_omitemptyStr, hasKeyL_omitemptyBool, hasKeyL_optObjField, hasKeyL_paramsField,
        hu, hswkeys "sessionId" (by decide)]
    case _ =>
      simp [hasKey_obj, Settings.fieldList, hasKeyL_append, hasKeyL_omitemptyInt,
        hasKeyL_omitemptyStr, hasKeyL_omitemptyBool, hasKeyL_optObjField, hasKeyL_paramsField,
        hu, hswkeys "invoiceNode" (by decide)]
    case _ =>
      simp [hasKey_obj, Settings.fieldList, hasKeyL_append, hasKeyL_omitemptyInt,
        hasKeyL_omitemptyStr, hasKeyL_omitemptyBool, hasKeyL_optObjField, hasKeyL_paramsField,
        hu, hswkeys "autoDetectEncoding" (by decide)]
    case _ =>
      simp [hasKey_obj, Settings.fieldList, hasKeyL_append, hasKeyL_omitemptyInt,
        hasKeyL_omitemptyStr, hasKeyL_omitemptyBool, hasKeyL_optObjField, hasKeyL_paramsField,
        hu, hswkeys "safeRemoveNonGsmCharacters" (by decide)]
    case _ =>
      simp [hasKey_obj, Settings.fieldList, hasKeyL_append, hasKeyL_omitemptyInt,
        hasKeyL_omitemptyStr, hasKeyL_omitemptyBool, hasKeyL_optObjField, hasKeyL_paramsField,
        hu, hswkeys "originatorSettings" (by decide)]
    case _ =>
      simp [hasKey_obj, Settings.fieldList, hasKeyL_append, hasKeyL_omitemptyInt,
        hasKeyL_omitemptyStr, hasKeyL_omitemptyBool, hasKeyL_optObjField, hasKeyL_paramsField,
        hu, hswkeys "gasSettings" (by decide)]
    case _ =>
      rw [hswnone hu]
      simp [hasKey_obj, Settings.fieldList, hasKeyL_append, hasKeyL_omitemptyInt,
        hasKeyL_omitemptyStr, hasKeyL_omitemptyBool, hasKeyL_optObjField, hasKeyL_paramsField,
        hasKeyL_nil]
    case _ =>
      simp [hasKey_obj, Settings.fieldList, hasKeyL_append, hasKeyL_omitemptyInt,
        hasKeyL_omitemptyStr, hasKeyL_omitemptyBool, hasKeyL_optObjField, hasKeyL_paramsField,
        hu, hswkeys "parameter" (by decide)]
  · intro w j h
    rcases sendWindow_marshal_ok_shape w j h with ⟨st, sd2, st2, rfl, e1, k1, e2, k2, e3, k3⟩
    refine ⟨fun h1 => ?_, fun h2 => ?_, fun h3 => ?_⟩
    · rw [e1 h1]
      simp [hasKey_obj, hasKeyL_append, hasKeyL_cons, hasKeyL_nil,
        k2 "startTime" (by decide), k3 "startTime" (by decide)]
    · rw [e2 h2]
      simp [hasKey_obj, hasKeyL_append, hasKeyL_cons, hasKeyL_nil,
        k1 "stopDate" (by decide), k3 "stopDate" (by decide)]
    · rw [e3 h3]
      simp [hasKey_obj, hasKeyL_append, hasKeyL_cons, hasKeyL_nil,
        k1 "stopTime" (by decide), k2 "stopTime" (by decide)]
  · intro g hd
    simp [GasSettings.toJson, hasKey_obj, hasKeyL_append, hasKeyL_cons, hasKeyL_nil,
      hasKeyL_omitemptyStr, hd]
  · intro r j h hbr
    rcases request_marshal_ok_shape r j h with ⟨ms, _, rfl⟩
    simp [hasKey_obj, hasKeyL_append, hasKeyL_cons, hasKeyL_nil, hasKeyL_omitemptyStr, hbr]

theorem unset_optional_fields_omitted_witness :
    (Json.obj [("recipient", Json.str ""), ("content", Json.str ""),
        ("price", Json.num 0)]).hasKey "clientReference" = false
    ∧ (Json.obj []).hasKey "age" = false
    ∧ (Json.obj []).hasKey "sendWindow" = false := by
  have h1 := unset_optional_fields_omitted.1 Message.goZero
    (Json.obj [("recipient", Json.str ""), ("content", Json.str ""), ("price", Json.num 0)]) rfl
  have h2 := unset_optional_fields_omitted.2.1 Settings.goZero (Json.obj []) rfl
  exact ⟨h1.1 rfl, h2.2.2.2.1 rfl, h2.2.2.2.2.2.2.2.2.2.2.2.1 rfl⟩

/-- C9: an explicit age rating of 0 is indistinguishable on the wire from an
unset one — when the age rating of `s` is unset (its zero value 0),
overwriting it with an explicit 0 renders byte-for-byte the same JSON — and
the `age` key is emitted exactly when `Age` is nonzero, so an explicit age
rating of 0 can never be transmitted; the `newSession`,
`autoDetectEncoding` and `safeRemoveNonGsmCharacters` flags are likewise
never emitted when false. -/
theorem settings_age_zero_never_transmitted :
    (∀ (s : Settings) (j j' : Json), s.Age = 0 →
        Settings.marshal (Settings.setAge s 0) = Except.ok j →
        Settings.marshal s = Except.ok j' →
        Json.render j = Json.render j') ∧
    (∀ (s : Settings) (j : Json), Settings.marshal s = Except.ok j →
        (j.hasKey "age" = true ↔ ¬(s.Age = 0)) ∧
        (s.NewSession = false → j.hasKey "newSession" = false) ∧
        (s.AutoDetectEncoding = false → j.hasKey "autoDetectEncoding" = false) ∧
        (s.SafeRemoveNonGsmCharacters = false →
          j.hasKey "safeRemoveNonGsmCharacters" = false)) := by
  constructor
  · intro s j j' hAge hj hj'
    have hs : Settings.setAge s 0 = s := by
      cases s
      simp only [Settings.setAge]
      simp_all
    rw [hs, hj'] at hj
    cases hj
    rfl
  · intro s j h
    rcases settings_marshal_ok_shape s j h with ⟨sw, rfl, _, hswkeys⟩
    refine ⟨?_, fun hu => ?_, fun hu => ?_, fun hu => ?_⟩
    · simp [hasKey_obj, Settings.fieldList, hasKeyL_append, hasKeyL_omitemptyInt,
        hasKeyL_omitemptyStr, hasKeyL_omitemptyBool, hasKeyL_optObjField, hasKeyL_paramsField,
        hswkeys "age" (by decide)]
    · simp [hasKey_obj, Settings.fieldList, hasKeyL_append, hasKeyL_omitemptyInt,
        hasKeyL_omitemptyStr, hasKeyL_omitemptyBool, hasKeyL_optObjField, hasKeyL_paramsField,
        hu, hswkeys "newSession" (by decide)]
    · simp [hasKey_obj, Settings.fieldList, hasKeyL_append, hasKeyL_omitemptyInt,
        hasKeyL_omitemptyStr, hasKeyL_omitemptyBool, hasKeyL_optObjField, hasKeyL_paramsField,
        hu, hswkeys "autoDetectEncoding" (by decide)]
    · simp [hasKey_obj, Settings.fieldList, hasKeyL_append, hasKeyL_omitemptyInt,
        hasKeyL_omitemptyStr, hasKeyL_omitemptyBool, hasKeyL_optObjField, hasKeyL_paramsField,
        hu, hswkeys "safeRemoveNonGsmCharacters" (by decide)]

theorem settings_age_zero_never_transmitted_witness :
    Json.render (Json.obj []) = Json.render (Json.obj [])
    ∧ ((Json.obj []).hasKey "age" = true ↔ ¬((0 : Int) = 0)) := by
  have h1 := settings_age_zero_never_transmitted.1 Settings.goZero
    (Json.obj []) (Json.obj []) rfl rfl rfl
  have h2 := settings_age_zero_never_transmitted.2 Settings.goZero (Json.obj []) rfl
  exact ⟨h1, h2.1⟩

/-- C6: `Send` issues exactly one HTTP POST, to `baseURL ++ "/sendMessages"`,
with `Content-Type: application/json` and `Accept: application/json`, and
the envelope's wire keys are exactly `serviceId`, `username`, `password`,
`batchReference` (present exactly when a batch reference is set — `Send`
never sets one, so its serialized envelope carries the other four), and
`message`, whose array holds the marshalled caller messages in order
(element-wise correspondence). -/
theorem send_issues_one_post_with_wire_names :
    (∀ (r : smsGatewayRequest) (j : Json), r.marshal = Except.ok j →
        Json.keys j = ["serviceId", "username", "password"]
          ++ (if r.BatchReference = "" then [] else ["batchReference"]) ++ ["message"]) ∧
    (∀ (messages : List Message) (ms : List Json),
        marshalMessages messages = Except.ok ms →
        List.Forall₂ (fun m jm => Message.marshal m = Except.ok jm) messages ms) ∧
    (∀ (client : SmsGatewayClient) (doHttp : HttpRequest → DoResult)
        (messages : List Message) (ms : List Json),
        marshalMessages messages = Except.ok ms →
        (client.Send doHttp messages).requests
          = [{ method := "POST",
               url := client.baseURL ++ "/sendMessages",
               contentType := "application/json",
               accept := "application/json",
               body := (Json.obj [("serviceId", Json.num client.serviceID),
                  ("username", Json.str client.username),
                  ("password", Json.str client.password),
                  ("message", Json.arr ms)]).render }]) := by
  refine ⟨?_, ?_, ?_⟩
  · intro r j h
    rcases request_marshal_ok_shape r j h with ⟨ms, _, rfl⟩
    by_cases hbr : r.BatchReference = "" <;>
      simp [Json.keys, omitemptyStr, hbr]
  · intro messages
    induction messages with
    | nil =>
      intro ms h
      cases h
      exact List.Forall₂.nil
    | cons m rest ih =>
      intro ms h
      simp only [marshalMessages] at h
      split at h
      · cases h
      rename_i jm hjm
      split at h
      · cases h
      rename_i js hjs
      cases h
      exact List.Forall₂.cons hjm (ih js hjs)
  · intro client doHttp messages ms hms
    have henv : (client.envelope messages).marshal
        = Except.ok (Json.obj [("serviceId", Json.num client.serviceID),
            ("username", Json.str client.username),
            ("password", Json.str client.password),
            ("message", Json.arr ms)]) := by
      simp only [smsGatewayRequest.marshal, SmsGatewayClient.envelope]
      rw [hms]
      simp [omitemptyStr]
    rw [send_requests_of_marshal_ok client doHttp messages _ henv]
    rfl

theorem send_issues_one_post_with_wire_names_witness :
    Json.keys (Json.obj [("serviceId", Json.num 7), ("username", Json.str "user"),
        ("password", Json.str "pass"),
        ("message", Json.arr [Json.obj [("recipient", Json.str ""), ("content", Json.str ""),
          ("price", Json.num 0)]])])
      = ["serviceId", "username", "password", "message"]
    ∧ ((MakeSmsGatewayClient "https://www.dummy-address.com" 7 "user" "pass").Send
        (fun _ => DoResult.resp 200 "") [Message.goZero]).requests
      = [{ method := "POST",
           url := "https://www.dummy-address.com/sendMessages",
           contentType := "application/json",
           accept := "application/json",
           body := "\x7b\"serviceId\":7,\"username\":\"user\",\"password\":\"pass\",\"message\":[\x7b\"recipient\":\"\",\"content\":\"\",\"price\":0\x7d]\x7d" }] := by
  have h1 := send_issues_one_post_with_wire_names.1
    { ServiceID := 7, Username := "user", Password := "pass", BatchReference := "",
      Messages := [Message.goZero] }
    (Json.obj [("serviceId", Json.num 7), ("username", Json.str "user"),
      ("password", Json.str "pass"),
      ("message", Json.arr [Json.obj [("recipient", Json.str ""), ("content", Json.str ""),
        ("price", Json.num 0)]])]) rfl
  have h3 := send_issues_one_post_with_wire_names.2.2
    (MakeSmsGatewayClient "https://www.dummy-address.com" 7 "user" "pass")
    (fun _ => DoResult.resp 200 "") [Message.goZero]
    [Json.obj [("recipient", Json.str ""), ("content", Json.str ""), ("price", Json.num 0)]] rfl
  exact ⟨h1, h3⟩

end SmsGw
